import Mathlib

/-!
Shallow embedding of the U-Well wellness chat application: the Express proxy
server (server.js: the /api/chat retry orchestrator, reply extraction, the
crisis keyword safety net, and the /api/analyze fallback policy) and the
browser chat client (chat.js: the exercise step state machine and the
transcript rollback in sendMessage).

JavaScript values flowing through JSON.parse and response bodies are modelled
by the inductive type JVal.  JavaScript truthiness, property access (including
optional chaining, which yields undefined = none on non-objects), and the
String conversion used by template literals are modelled explicitly.  Known
model approximations, each irrelevant to the properties proved here: JSON
number literals keep their integer part plus a flag recording a nonzero
fractional part (exponents are consumed but not applied); String.trim covers
the ASCII whitespace JavaScript trims; toLowerCase lowers ASCII letters.
-/

/-- A JSON / JavaScript value as produced by JSON.parse or built by the
server handlers.  jnum keeps the integer part and a flag for a nonzero
fractional part. -/
inductive JVal where
  | jnull
  | jbool (b : Bool)
  | jnum (m : Int) (fracNz : Bool)
  | jstr (s : String)
  | jarr (elems : List JVal)
  | jobj (fields : List (String × JVal))

/-- JavaScript truthiness of a value. -/
def jTruthy : JVal → Bool
  | JVal.jnull => false
  | JVal.jbool b => b
  | JVal.jnum m f => decide (m ≠ 0) || f
  | JVal.jstr s => !(s == "")
  | JVal.jarr _ => true
  | JVal.jobj _ => true

/-- Property access v.k as the handlers use it: a field of an object (for
duplicate keys the last occurrence wins, as in JSON.parse), undefined (none)
on everything else.  Optional chaining is Option.bind over this. -/
def jGet (v : JVal) (k : String) : Option JVal :=
  match v with
  | JVal.jobj fields => (fields.reverse.find? (fun kv => kv.1 == k)).map (fun kv => kv.2)
  | _ => none

/-- Index access v[i]: an element of an array, undefined otherwise. -/
def jIdx (v : JVal) (i : Nat) : Option JVal :=
  match v with
  | JVal.jarr xs => xs.get? i
  | _ => none

/-- Truthiness of a possibly-undefined value. -/
def jTruthyOpt : Option JVal → Bool
  | some w => jTruthy w
  | none => false

/-- The JavaScript expression a || b for a possibly-undefined a: a when
truthy, otherwise b. -/
def jOr (a : Option JVal) (b : JVal) : JVal :=
  match a with
  | some v => if jTruthy v then v else b
  | none => b

/-- Tests whether a possibly-undefined value is strictly equal (===) to a
given string literal. -/
def isStrVal (v : Option JVal) (s : String) : Bool :=
  match v with
  | some (JVal.jstr t) => t == s
  | _ => false

mutual
/-- String(v), the conversion used by JavaScript template literals; arrays
join their elements with commas, where null renders as the empty string. -/
def jsStringOf : JVal → String
  | JVal.jnull => "null"
  | JVal.jbool b => if b then "true" else "false"
  | JVal.jnum m _ => toString m
  | JVal.jstr s => s
  | JVal.jarr xs => String.intercalate "," (jsStringArr xs)
  | JVal.jobj _ => "[object Object]"

/-- Comma-join images of array elements for jsStringOf. -/
def jsStringArr : List JVal → List String
  | [] => []
  | JVal.jnull :: vs => "" :: jsStringArr vs
  | v :: vs => jsStringOf v :: jsStringArr vs
end

/-! JSON.parse.  A recursive-descent parser over the character list, with a
fuel argument for termination; the initial fuel is large enough that it is
never exhausted on any input (every recursive call follows consuming at
least one character or enters a subterm). -/

/-- Whitespace accepted by JSON between tokens. -/
def isJsonWs (c : Char) : Bool :=
  c.toNat = 32 || c.toNat = 9 || c.toNat = 10 || c.toNat = 13

/-- Drop leading JSON whitespace. -/
def skipWs : List Char → List Char
  | [] => []
  | c :: cs => if isJsonWs c then skipWs cs else c :: cs

/-- Hexadecimal digit value, for string escapes. -/
def hexVal (c : Char) : Option Nat :=
  if c.isDigit then some (c.toNat - 48)
  else if 97 ≤ c.toNat ∧ c.toNat ≤ 102 then some (c.toNat - 87)
  else if 65 ≤ c.toNat ∧ c.toNat ≤ 70 then some (c.toNat - 55)
  else none

def quoteChar : Char := Char.ofNat 34
def backslashChar : Char := Char.ofNat 92
def lbraceChar : Char := Char.ofNat 123
def rbraceChar : Char := Char.ofNat 125

/-- Body of a JSON string after the opening quote: characters until the
closing quote, with the JSON escapes; raw control characters are a parse
error, as in JSON.parse. -/
def parseStringChars : List Char → List Char → Option (String × List Char)
  | _, [] => none
  | acc, c :: rest =>
    if c = quoteChar then some (String.mk acc.reverse, rest)
    else if c = backslashChar then
      match rest with
      | [] => none
      | e :: rest2 =>
        if e = quoteChar then parseStringChars (quoteChar :: acc) rest2
        else if e = backslashChar then parseStringChars (backslashChar :: acc) rest2
        else if e = '/' then parseStringChars ('/' :: acc) rest2
        else if e = 'n' then parseStringChars (Char.ofNat 10 :: acc) rest2
        else if e = 't' then parseStringChars (Char.ofNat 9 :: acc) rest2
        else if e = 'r' then parseStringChars (Char.ofNat 13 :: acc) rest2
        else if e = 'b' then parseStringChars (Char.ofNat 8 :: acc) rest2
        else if e = 'f' then parseStringChars (Char.ofNat 12 :: acc) rest2
        else if e = 'u' then
          match rest2 with
          | a :: b :: c2 :: d :: rest3 =>
            match hexVal a, hexVal b, hexVal c2, hexVal d with
            | some x1, some x2, some x3, some x4 =>
              parseStringChars (Char.ofNat (((x1 * 16 + x2) * 16 + x3) * 16 + x4) :: acc) rest3
            | _, _, _, _ => none
          | _ => none
        else none
    else if c.toNat < 32 then none
    else parseStringChars (c :: acc) rest

/-- A maximal run of decimal digits and the remainder. -/
def digitRun : List Char → List Char × List Char
  | [] => ([], [])
  | c :: rest =>
    if c.isDigit then
      let (ds, r) := digitRun rest
      (c :: ds, r)
    else ([], c :: rest)

def natOfDigits (ds : List Char) : Nat :=
  ds.foldl (fun a c => a * 10 + (c.toNat - 48)) 0

/-- A JSON number: optional minus, integer part without leading zeros,
optional fraction and exponent.  The value kept is the integer part and a
flag for a nonzero fraction; the exponent is consumed but not applied. -/
def parseNumber (cs : List Char) : Option ((Int × Bool) × List Char) :=
  let (neg, cs1) :=
    match cs with
    | c :: rest => if c = '-' then (true, rest) else (false, cs)
    | [] => (false, ([] : List Char))
  match cs1 with
  | [] => none
  | c :: _ =>
    if !c.isDigit then none
    else
      let (ds, cs2) := digitRun cs1
      if 1 < ds.length ∧ ds.headD '0' = '0' then none
      else
        let m0 : Int := (natOfDigits ds : Int)
        let m : Int := if neg then -m0 else m0
        let (fracNz, cs3) :=
          match cs2 with
          | '.' :: cs2a =>
            let (fs, r) := digitRun cs2a
            if fs.isEmpty then (none, cs2)
            else (some (fs.any (fun d => d ≠ '0')), r)
          | _ => (some false, cs2)
        match fracNz with
        | none => none
        | some f =>
          match cs3 with
          | 'e' :: cs4 | 'E' :: cs4 =>
            let cs5 :=
              match cs4 with
              | '+' :: r => r
              | '-' :: r => r
              | _ => cs4
            let (es, cs6) := digitRun cs5
            if es.isEmpty then none else some ((m, f), cs6)
          | _ => some ((m, f), cs3)

/-- Recognize a fixed keyword (rue / alse / ull after the first letter). -/
def expectChars : List Char → List Char → Option (List Char)
  | [], cs => some cs
  | e :: es, c :: cs => if c = e then expectChars es cs else none
  | _ :: _, [] => none

mutual
/-- A JSON value, leading whitespace allowed. -/
def parseVal : Nat → List Char → Option (JVal × List Char)
  | 0, _ => none
  | Nat.succ fu, cs =>
    match skipWs cs with
    | [] => none
    | c :: rest =>
      if c = quoteChar then
        match parseStringChars [] rest with
        | some (s, r) => some (JVal.jstr s, r)
        | none => none
      else if c = lbraceChar then
        match skipWs rest with
        | [] => none
        | c2 :: r2 =>
          if c2 = rbraceChar then some (JVal.jobj [], r2)
          else parseMembers fu (c2 :: r2) []
      else if c = '[' then
        match skipWs rest with
        | [] => none
        | c2 :: r2 =>
          if c2 = ']' then some (JVal.jarr [], r2)
          else parseElems fu (c2 :: r2) []
      else if c = 't' then
        match expectChars ['r', 'u', 'e'] rest with
        | some r => some (JVal.jbool true, r)
        | none => none
      else if c = 'f' then
        match expectChars ['a', 'l', 's', 'e'] rest with
        | some r => some (JVal.jbool false, r)
        | none => none
      else if c = 'n' then
        match expectChars ['u', 'l', 'l'] rest with
        | some r => some (JVal.jnull, r)
        | none => none
      else if c = '-' ∨ c.isDigit then
        match parseNumber (c :: rest) with
        | some ((m, f), r) => some (JVal.jnum m f, r)
        | none => none
      else none

/-- The members of an object after the opening brace (nonempty case). -/
def parseMembers : Nat → List Char → List (String × JVal) → Option (JVal × List Char)
  | 0, _, _ => none
  | Nat.succ fu, cs, acc =>
    match skipWs cs with
    | [] => none
    | c :: rest =>
      if c = quoteChar then
        match parseStringChars [] rest with
        | some (k, r1) =>
          match skipWs r1 with
          | ':' :: r2 =>
            match parseVal fu r2 with
            | some (v, r3) =>
              match skipWs r3 with
              | ',' :: r4 => parseMembers fu r4 ((k, v) :: acc)
              | c2 :: r4 =>
                if c2 = rbraceChar then some (JVal.jobj ((k, v) :: acc).reverse, r4)
                else none
              | [] => none
            | none => none
          | _ => none
        | none => none
      else none

/-- The elements of an array after the opening bracket (nonempty case). -/
def parseElems : Nat → List Char → List JVal → Option (JVal × List Char)
  | 0, _, _ => none
  | Nat.succ fu, cs, acc =>
    match parseVal fu cs with
    | some (v, r1) =>
      match skipWs r1 with
      | ',' :: r2 => parseElems fu r2 (v :: acc)
      | ']' :: r2 => some (JVal.jarr (v :: acc).reverse, r2)
      | _ => none
    | none => none
end

/-- JSON.parse of a whole string: one value with only whitespace around it. -/
def jsonParse (s : String) : Option JVal :=
  match parseVal (2 * s.length + 8) s.toList with
  | some (v, rest) => if (skipWs rest).isEmpty then some v else none
  | none => none

/-- parseJsonSafe from server.js: null on a falsy or non-string argument,
JSON.parse otherwise with failures mapped to null. -/
def parseJsonSafe (s : String) : Option JVal :=
  if s = "" then none else jsonParse s

/-! stripCodeFences and reply extraction (server.js helpers). -/

/-- A word character in the sense of the regex class used by the fence
stripper (ASCII letters, digits, underscore). -/
def isWordChar (c : Char) : Bool :=
  c.isAlphanum || c = '_'

/-- Whitespace in the sense of the regex escape used by the fence stripper
and of the trim the client and server apply to strings. -/
def isJsWsChar (c : Char) : Bool :=
  c.toNat = 32 || c.toNat = 9 || c.toNat = 10 || c.toNat = 13 || c.toNat = 12 || c.toNat = 11

/-- JavaScript String.prototype.trim on a character list. -/
def jsTrimList (cs : List Char) : List Char :=
  ((cs.dropWhile isJsWsChar).reverse.dropWhile isJsWsChar).reverse

/-- JavaScript String.prototype.trim. -/
def jsTrim (s : String) : String :=
  String.mk (jsTrimList s.toList)

/-- JavaScript toLowerCase on one character (ASCII range). -/
def jsCharToLower (c : Char) : Char :=
  if 65 ≤ c.toNat ∧ c.toNat ≤ 90 then Char.ofNat (c.toNat + 32) else c

/-- JavaScript String.prototype.toLowerCase. -/
def jsToLower (s : String) : String :=
  String.mk (s.toList.map jsCharToLower)

/-- Whether the needle occurs at the start of the haystack. -/
def listStartsWith : List Char → List Char → Bool
  | [], _ => true
  | _ :: _, [] => false
  | a :: as, b :: bs => a == b && listStartsWith as bs

/-- Whether the needle occurs anywhere in the haystack (String.includes). -/
def listHasInfix (needle : List Char) : List Char → Bool
  | [] => needle.isEmpty
  | c :: rest => listStartsWith needle (c :: rest) || listHasInfix needle rest

def backtickChar : Char := Char.ofNat 96

/-- stripCodeFences from server.js: trim, then remove a full triple-backtick
fence (with optional language tag and surrounding whitespace), then remove a
full single-backtick wrap, then trim again. -/
def stripCodeFences (s : String) : String :=
  if s = "" then ""
  else
    let cs := jsTrimList s.toList
    let fence := [backtickChar, backtickChar, backtickChar]
    let cs :=
      if listStartsWith fence cs && listStartsWith fence cs.reverse &&
          decide (6 ≤ cs.length) then
        let u := ((cs.drop 3).reverse.drop 3).reverse
        let u := (u.dropWhile isWordChar).dropWhile isJsWsChar
        (u.reverse.dropWhile isJsWsChar).reverse
      else cs
    let cs :=
      if listStartsWith [backtickChar] cs && listStartsWith [backtickChar] cs.reverse &&
          decide (2 ≤ cs.length) then
        ((cs.drop 1).reverse.drop 1).reverse
      else cs
    String.mk (jsTrimList cs)

/-- The value a provider-call attempt produces once extracted: null (the
code's "no reply"), a string, or a truthy non-string JavaScript value (on
which the caller's .trim() throws). -/
inductive ReplyVal where
  | rnull
  | rstr (s : String)
  | rother (v : JVal)

/-- safeText from extractReplyFromProviderObj: the value when it is a
string, the empty string otherwise. -/
def safeTextJ (v : JVal) : String :=
  match v with
  | JVal.jstr s => s
  | _ => ""

/-- The optional-chaining path j.response.candidates[0].content.parts[0].text
tested by the Gemini branch of extractReplyFromProviderObj. -/
def geminiTextOf (j : JVal) : Option JVal :=
  ((((((jGet j "response").bind (fun v => jGet v "candidates")).bind
      (fun v => jIdx v 0)).bind (fun v => jGet v "content")).bind
      (fun v => jGet v "parts")).bind (fun v => jIdx v 0)).bind
      (fun v => jGet v "text")

/-- The path j.choices[0].message.content tested by the OpenAI branch, only
when j.choices is an array. -/
def openaiContentOf (j : JVal) : Option JVal :=
  match jGet j "choices" with
  | some (JVal.jarr xs) =>
    ((xs.get? 0).bind (fun v => jGet v "message")).bind (fun v => jGet v "content")
  | _ => none

/-- The Gemini branch body on a string text value: strip fences, try JSON,
and when the parse is truthy return safeText(parsed.text || text). -/
def geminiUnwrap (s : String) : ReplyVal :=
  let text := stripCodeFences s
  match parseJsonSafe text with
  | some p =>
    if jTruthy p then
      match jGet p "text" with
      | some w => if jTruthy w then ReplyVal.rstr (safeTextJ w) else ReplyVal.rstr text
      | none => ReplyVal.rstr text
    else ReplyVal.rstr text
  | none => ReplyVal.rstr text

/-- The OpenAI branch of extractReplyFromProviderObj. -/
def openaiBranch (j : JVal) : ReplyVal :=
  match openaiContentOf j with
  | some w =>
    if jTruthy w then
      match w with
      | JVal.jstr c => ReplyVal.rstr (stripCodeFences c)
      | _ => ReplyVal.rother w
    else ReplyVal.rnull
  | none => ReplyVal.rnull

/-- extractReplyFromProviderObj from server.js: null on a falsy argument,
then the Gemini shape, then the OpenAI shape, else null. -/
def extractReplyFromProviderObj (j : JVal) : ReplyVal :=
  if jTruthy j then
    match geminiTextOf j with
    | some v =>
      if jTruthy v then
        match v with
        | JVal.jstr s => geminiUnwrap s
        | _ => ReplyVal.rother v
      else openaiBranch j
    | none => openaiBranch j
  else ReplyVal.rnull

/-! The /api/chat handler (server.js). -/

/-- One fallback helpline entry (name, phone). -/
structure Helpline where
  name : String
  phone : String

/-- fallbackHelplines from server.js, as the per-locale table; indexing with
any other locale yields undefined. -/
def fallbackHelplines (lang : String) : Option (List Helpline) :=
  if lang = "en" then
    some [⟨"AASRA", "+91-9820466726"⟩, ⟨"NIMHANS", "080-46110007"⟩]
  else if lang = "hi" then
    some [⟨"AASRA", "+91-9820466726"⟩, ⟨"निमहांस", "080-46110007"⟩]
  else none

/-- The same table as the JSON value placed in a response body. -/
def fallbackHelplinesJ (lang : String) : Option JVal :=
  (fallbackHelplines lang).map (fun hs =>
    JVal.jarr (hs.map (fun h =>
      JVal.jobj [("name", JVal.jstr h.name), ("phone", JVal.jstr h.phone)])))

/-- Whether a possibly-undefined helplines value is a nonempty array. -/
def helplinesNonEmptyJ : Option JVal → Bool
  | some (JVal.jarr (_ :: _)) => true
  | _ => false

/-- The response the /api/chat handler sends: an ordinary reply (res.json,
HTTP 200), a crisis reply (res.json, HTTP 200; text and helplines may be
absent when the model supplied none), the pre-loop credentials error
(HTTP 500), or the post-loop quota response (HTTP 429). -/
inductive ChatResponse where
  | reply (text : String) (request_photo : JVal)
  | crisis (text : Option JVal) (helplines : Option JVal)
  | credentialsError (err : String)
  | quotaExceeded

/-- The HTTP status each response is sent with. -/
def statusOf : ChatResponse → Nat
  | ChatResponse.reply _ _ => 200
  | ChatResponse.crisis _ _ => 200
  | ChatResponse.credentialsError _ => 500
  | ChatResponse.quotaExceeded => 429

/-- Whether a response has type crisis. -/
def ChatResponse.isCrisis : ChatResponse → Bool
  | ChatResponse.crisis _ _ => true
  | _ => false

/-- The crisis keyword list scanned over the raw user input. -/
def triggers : List String :=
  ["suicide", "kill myself", "end my life", "hopeless", "want to die"]

/-- triggers.some(t => message.toLowerCase().includes(t)). -/
def triggersHit (message : String) : Bool :=
  let lower := jsToLower message
  triggers.any (fun t => listHasInfix t.toList lower.toList)

/-- The locale texts of the three soft replies and the keyword-crisis text. -/
def emptyReplyText (lang : String) : String :=
  if lang = "hi" then "क्षमा करें, मैं अभी जवाब नहीं दे पाया। आप कैसा महसूस कर रहे हैं?"
  else "Sorry, I couldn’t generate a response. How are you feeling?"

/-- The apology sent when every attempt threw. -/
def serverErrorReplyText (lang : String) : String :=
  if lang = "hi" then "क्षमा करें, सर्वर में त्रुटि हुई। कृपया फिर से कोशिश करें।"
  else "Sorry, a server error occurred. Please try again."

/-- The crisis text of the keyword safety net. -/
def crisisReplyText (lang : String) : String :=
  if lang = "hi" then "आप अकेले नहीं हैं, और मैं आपकी मदद के लिए हूँ। कृपया किसी से संपर्क करें जो आपका समर्थन कर सके।"
  else "You’re not alone, and I’m here to help. Please reach out to someone who can support you."

/-- parsed?.type === 'crisis'. -/
def isCrisisTyped (parsed : Option JVal) : Bool :=
  isStrVal (parsed.bind (fun p => jGet p "type")) "crisis"

/-- parsed?.request_photo || false, placed verbatim in the reply body. -/
def requestPhotoOf (parsed : Option JVal) : JVal :=
  match parsed.bind (fun p => jGet p "request_photo") with
  | some v => if jTruthy v then v else JVal.jbool false
  | none => JVal.jbool false

/-- The outcome of one provider call: the call threw, or it returned an
object (the SDK result the extraction inspects). -/
inductive Attempt where
  | throws
  | returns (j : JVal)

/-- The try-block body of one loop iteration after the provider returned j:
some response when the handler returns, none when a TypeError escapes into
the catch (a truthy non-string extraction crashing on .trim()). -/
def processSuccess (lang message : String) (j : JVal) : Option ChatResponse :=
  match extractReplyFromProviderObj j with
  | ReplyVal.rnull => some (ChatResponse.reply (emptyReplyText lang) (JVal.jbool false))
  | ReplyVal.rother _ => none
  | ReplyVal.rstr s =>
    if jsTrim s = "" then some (ChatResponse.reply (emptyReplyText lang) (JVal.jbool false))
    else
      let parsed := parseJsonSafe s
      if isCrisisTyped parsed then
        let ph := parsed.bind (fun p => jGet p "helplines")
        let hl : Option JVal :=
          match ph with
          | some v => if jTruthy v then some v else fallbackHelplinesJ lang
          | none => fallbackHelplinesJ lang
        some (ChatResponse.crisis (parsed.bind (fun p => jGet p "text")) hl)
      else if triggersHit message then
        some (ChatResponse.crisis (some (JVal.jstr (crisisReplyText lang)))
          (fallbackHelplinesJ lang))
      else
        some (ChatResponse.reply (jsTrim s) (requestPhotoOf parsed))

/-- maxAttempts from the handler. -/
def maxAttempts : Nat := 3

/-- The backoff slept after failed attempt n: min(1000 * 2^(n-1), 60000). -/
def backoffMs (attempt : Nat) : Nat :=
  min (1000 * 2 ^ (attempt - 1)) 60000

/-- The retry loop, by fuel on the remaining iterations; attempts gives each
provider call outcome by attempt number.  The result carries the response,
the attempt number that produced it, and the list of backoffs slept. -/
def chatLoop (lang message : String) (attempts : Nat → Attempt) :
    Nat → Nat → List Nat → ChatResponse × Nat × List Nat
  | 0, n, sleeps => (ChatResponse.quotaExceeded, n - 1, sleeps)
  | Nat.succ fuel, n, sleeps =>
    match
      (match attempts n with
       | Attempt.throws => none
       | Attempt.returns j => processSuccess lang message j) with
    | some r => (r, n, sleeps)
    | none =>
      if maxAttempts ≤ n then
        (ChatResponse.reply (serverErrorReplyText lang) (JVal.jbool false), n, sleeps)
      else
        chatLoop lang message attempts fuel (n + 1) (sleeps ++ [backoffMs n])

/-- Environment configuration read at the top of the handler.  An unset
variable is none; an empty string is falsy like unset. -/
structure Env where
  llmProvider : Option String
  googleApiKey : Option String
  openaiApiKey : Option String

/-- Which provider client gets constructed. -/
inductive Provider where
  | google
  | openai

/-- Truthiness of an environment string. -/
def envStrTruthy : Option String → Bool
  | some s => !(s == "")
  | none => false

/-- The provider-selection block: LLM_PROVIDER || 'google', then the
matching key must be present, else the handler returns the 500 error. -/
def selectProvider (env : Env) : Option Provider :=
  let provider :=
    match env.llmProvider with
    | some s => if s = "" then "google" else s
    | none => "google"
  if provider == "google" && envStrTruthy env.googleApiKey then some Provider.google
  else if provider == "openai" && envStrTruthy env.openaiApiKey then some Provider.openai
  else none

/-- The /api/chat handler over one request: provider selection, then the
bounded retry loop starting at attempt 1 with empty sleep trace. -/
def chatHandler (env : Env) (lang message : String) (attempts : Nat → Attempt) :
    ChatResponse × Nat × List Nat :=
  match selectProvider env with
  | none => (ChatResponse.credentialsError "Missing API credentials for selected provider", 0, [])
  | some _ => chatLoop lang message attempts maxAttempts 1 []

/-! The /api/analyze handler (server.js). -/

/-- The multer-parsed upload, when a file field was attached. -/
structure UploadedFile where
  originalname : String
  mimetype : String

/-- The outcome of the proxied call to the Python pose service: fetch threw,
non-ok HTTP status (the handler then throws into its catch), ok with a JSON
object body, or ok with a body .json() fails on (also caught). -/
inductive PyOutcome where
  | unreachable
  | httpError (status : Nat)
  | okBadJson
  | okJson (data : List (String × JVal))

/-- The /api/analyze response: 400 error body, relayed analysis
(type analysis spread before the upstream fields), or the canned fallback. -/
inductive AnalyzeResponse where
  | noImage
  | analysis (body : List (String × JVal))
  | fallback (summary : String) (recommendations : List String) (notes : String)

/-- The HTTP status of an /api/analyze response. -/
def analyzeStatus : AnalyzeResponse → Nat
  | AnalyzeResponse.noImage => 400
  | _ => 200

/-- The canned fallback recommendation list per locale. -/
def fallbackRecommendations (lang : String) : List String :=
  if lang = "hi" then ["सीधे रहें!"] else ["Keep going!"]

/-- The canned fallback summary per locale. -/
def fallbackSummary (lang : String) : String :=
  if lang = "hi" then "डेमो: अच्छा पोस्टर।" else "Demo: Good posture."

/-- The /api/analyze handler: 400 when no file, the relayed body on an ok
JSON response, and the canned fallback on every caught failure. -/
def analyzeHandler (file : Option UploadedFile) (lang : String) (py : PyOutcome) :
    AnalyzeResponse :=
  match file with
  | none => AnalyzeResponse.noImage
  | some _ =>
    match py with
    | PyOutcome.okJson data => AnalyzeResponse.analysis (("type", JVal.jstr "analysis") :: data)
    | _ =>
      AnalyzeResponse.fallback (fallbackSummary lang) (fallbackRecommendations lang)
        "Python server offline or unreachable."

/-! The exercise step state machine (chat.js). -/

/-- The fields of an analysis result object the client reads, each possibly
absent.  This is the view analysisResultOfJ takes of a response body. -/
structure AnalysisResult where
  summary : Option JVal
  posture : Option JVal
  score : Option JVal
  notes : Option JVal
  recommendations : Option JVal

/-- The client view of a JSON response body as an analysis result. -/
def analysisResultOfJ (body : JVal) : AnalysisResult :=
  ⟨jGet body "summary", jGet body "posture", jGet body "score", jGet body "notes",
   jGet body "recommendations"⟩

/-- result.recommendations || []. -/
def normalizedRecommendations (r : AnalysisResult) : JVal :=
  jOr r.recommendations (JVal.jarr [])

/-- The live exercise state: the owning analysis, the current step index
(a JavaScript number, so an integer here), and the step count. -/
structure ExerciseState where
  analysis : AnalysisResult
  currentStep : Int
  totalSteps : Nat

/-- The state effect of handleAnalysisResult: a fresh state at step 0 when
the recommendation list is a nonempty array, otherwise no live state. -/
def handleAnalysisResult (result : AnalysisResult) : Option ExerciseState :=
  match normalizedRecommendations result with
  | JVal.jarr xs =>
    if 0 < xs.length then some ⟨result, 0, xs.length⟩ else none
  | _ => none

/-- goToStep: clamp the requested index into [0, totalSteps - 1]. -/
def goToStep (st : ExerciseState) (newIndex : Int) : ExerciseState :=
  { st with currentStep := max 0 (min ((st.totalSteps : Int) - 1) newIndex) }

/-- The Next button: goToStep(idx + 1). -/
def nextStep (st : ExerciseState) : ExerciseState :=
  goToStep st (st.currentStep + 1)

/-- The Prev button: goToStep(idx - 1). -/
def prevStep (st : ExerciseState) : ExerciseState :=
  goToStep st (st.currentStep - 1)

/-- The final score reported on completion: the analysis score when truthy,
else the number 0. -/
def exerciseFinalScore (st : ExerciseState) : JVal :=
  jOr st.analysis.score (JVal.jnum 0 false)

/-- The completion message template of completeExercise. -/
def completionMsg (lang : String) (totalSteps : Nat) (finalScore : JVal) : String :=
  if lang = "hi" then
    "अभ्यास पूरा! " ++ toString totalSteps ++ " कदम पूरे। अंतिम स्कोर: " ++
      jsStringOf finalScore ++ "/100। शानदार!"
  else
    "Exercise complete! " ++ toString totalSteps ++ " steps done. Final score: " ++
      jsStringOf finalScore ++ "/100. Great job!"

/-- completeExercise: emit the completion message and clear the state. -/
def completeExercise (lang : String) (st : ExerciseState) : Option ExerciseState × String :=
  (none, completionMsg lang st.totalSteps (exerciseFinalScore st))

/-! The conversation transcript and sendMessage (chat.js). -/

/-- One transcript turn: role plus parts[0].text as pushed by the client. -/
structure Turn where
  role : String
  text : JVal

/-- escapeHtml from chat.js, on an actual string. -/
def escapeHtml (s : String) : String :=
  String.join (s.toList.map (fun c =>
    if c = '&' then "&amp;"
    else if c = '<' then "&lt;"
    else if c = '>' then "&gt;"
    else if c = quoteChar then "&quot;"
    else if c = Char.ofNat 39 then "&#039;"
    else String.singleton c))

/-- escapeHtml on an arbitrary value: the empty string when not a string. -/
def escapeHtmlJ (v : JVal) : String :=
  match v with
  | JVal.jstr s => escapeHtml s
  | _ => ""

/-- The summary bubble text handleAnalysisResult builds (two lines:
posture summary and score). -/
def summaryTextOf (lang : String) (r : AnalysisResult) : String :=
  let sv := jOr r.summary (jOr r.posture (JVal.jstr "Unknown"))
  let scoreStr := jsStringOf (jOr r.score (JVal.jstr "N/A"))
  if lang = "hi" then
    "पोस्टर चिन्ह: " ++ escapeHtmlJ sv ++ "\n" ++ "स्कोर: " ++ escapeHtml scoreStr
  else
    "Posture: " ++ escapeHtmlJ sv ++ "\n" ++ "Score: " ++ escapeHtml scoreStr

/-- The text handleAnalysisResult pushes onto the transcript: the summary,
with the notes appended when truthy. -/
def textToStoreOf (lang : String) (r : AnalysisResult) : String :=
  match r.notes with
  | some v =>
    if jTruthy v then summaryTextOf lang r ++ "\n" ++ jsStringOf v
    else summaryTextOf lang r
  | none => summaryTextOf lang r

/-- typeof parsedResponse === 'object' (true for objects, arrays and null). -/
def typeofObject : JVal → Bool
  | JVal.jobj _ => true
  | JVal.jarr _ => true
  | JVal.jnull => true
  | _ => false

/-- The fallback bubble text when the body shape is unrecognized. -/
def couldNotUnderstandText (lang : String) : String :=
  if lang = "hi" then "क्षमा करें, मुझे समझ नहीं आया।"
  else "Sorry, I could not understand the response."

/-- The fallback bubble text when the body is not an object. -/
def noResponseText (lang : String) : String :=
  if lang = "hi" then "क्षमा करें, जवाब प्राप्त नहीं हुआ।"
  else "Sorry, no response received."

/-- The model turns the success path of sendMessage appends to the
transcript, per response shape (the analysis shape also stores the summary
turn pushed inside handleAnalysisResult before the finalText turn). -/
def okBranchTurns (reqLang : String) (body : JVal) : List Turn :=
  if jTruthy body && typeofObject body then
    let ty := jGet body "type"
    if isStrVal ty "reply" && jTruthyOpt (jGet body "text") then
      [⟨"model", JVal.jstr (jsTrim (jsStringOf (jOr (jGet body "text") JVal.jnull)))⟩]
    else if isStrVal ty "crisis" && jTruthyOpt (jGet body "text") then
      [⟨"model", JVal.jstr (jsTrim (jsStringOf (jOr (jGet body "text") JVal.jnull)))⟩]
    else if isStrVal ty "analysis" then
      [⟨"model", JVal.jstr (textToStoreOf reqLang (analysisResultOfJ body))⟩,
       ⟨"model", jOr (jGet body "summary") (jOr (jGet body "notes") (JVal.jstr "Received analysis."))⟩]
    else
      [⟨"model", JVal.jstr (couldNotUnderstandText reqLang)⟩]
  else
    [⟨"model", JVal.jstr (noResponseText reqLang)⟩]

/-- How one send resolves, as the client observes it: non-ok HTTP status,
a thrown fetch / body-read error, the 30-second AbortError timeout, or an
ok response with a parsed JSON body. -/
inductive SendOutcome where
  | httpNonOk (status : Nat) (bodyText : String)
  | networkError
  | timeoutAbort
  | ok (body : JVal)

/-- Whether the outcome is one of the three failure paths that roll the
optimistic user turn back. -/
def SendOutcome.isFailure : SendOutcome → Bool
  | SendOutcome.ok _ => false
  | _ => true

/-- The transcript effect of sendMessage: append the user turn, then on any
failure pop it again, and on success append the model turn(s). -/
def sendMessage (hist : List Turn) (reqLang text : String) (outcome : SendOutcome) :
    List Turn :=
  if text = "" then hist
  else
    let h1 := hist ++ [⟨"user", JVal.jstr text⟩]
    match outcome with
    | SendOutcome.httpNonOk _ _ => h1.dropLast
    | SendOutcome.networkError => h1.dropLast
    | SendOutcome.timeoutAbort => h1.dropLast
    | SendOutcome.ok body => h1 ++ okBranchTurns reqLang body

/-! Shared concrete inputs for witnesses and counterexamples. -/

/-- An environment selecting the Google provider with a key present. -/
def envGoogleW : Env := ⟨none, some "test-key", none⟩

/-- An environment naming an unrecognized provider. -/
def envBadW : Env := ⟨some "azure", some "key", some "key"⟩

/-- An OpenAI-shaped provider object with a plain supportive reply. -/
def openaiGoodObjW : JVal :=
  JVal.jobj [("choices", JVal.jarr [JVal.jobj [("message",
    JVal.jobj [("content", JVal.jstr "Stay strong, friend")])]])]

/-- A Gemini-shaped provider object around the given inner text. -/
def geminiObjOf (s : String) : JVal :=
  JVal.jobj [("response", JVal.jobj [("candidates", JVal.jarr [JVal.jobj [("content",
    JVal.jobj [("parts", JVal.jarr [JVal.jobj [("text", JVal.jstr s)]])])]])])]

/-- A fenced JSON payload as Gemini returns it. -/
def fencedTextW : String := "```json\n\x7b\"text\": \"Hello!\"\x7d\n```"

/-- The parse of the unfenced payload. -/
def fencedParsedW : JVal := JVal.jobj [("text", JVal.jstr "Hello!")]

/-- An object matching neither provider shape. -/
def unknownShapeObjW : JVal := JVal.jobj [("foo", JVal.jstr "bar")]

/-- Attempt trace: first call returns a good OpenAI reply. -/
def attemptsKeywordW : Nat → Attempt :=
  fun i => if i = 1 then Attempt.returns openaiGoodObjW else Attempt.throws

/-- Attempt trace: every call returns an object with no extractable reply. -/
def attemptsEmptyW : Nat → Attempt := fun _ => Attempt.returns (JVal.jobj [])

/-- Attempt trace: attempt 1 has no extractable reply, attempt 2 would have
a good one. -/
def attemptsRetryCheckW : Nat → Attempt :=
  fun i => if i = 1 then Attempt.returns unknownShapeObjW else Attempt.returns openaiGoodObjW

/-- The length of an array value (0 otherwise). -/
def jArrLenOf : JVal → Nat
  | JVal.jarr xs => xs.length
  | _ => 0

/-- Whether a value is an array. -/
def isJArr : JVal → Bool
  | JVal.jarr _ => true
  | _ => false

/-- The parse of the unfenced Gemini payload used in witnesses. -/
def geminiPlainTextW : String := "plain text reply"

/-- An analysis result with exactly the two scenario recommendations. -/
def twoStepAnalysisW : AnalysisResult :=
  ⟨none, none, none, none,
   some (JVal.jarr [JVal.jstr "Sit straight", JVal.jstr "Relax shoulders"])⟩

/-- A concrete upload for the analyze witnesses. -/
def fileW : UploadedFile := ⟨"photo.jpg", "image/jpeg"⟩

/-! Helper lemmas about one step of the retry loop. -/

lemma chatLoop_step_respond (lang message : String) (attempts : Nat → Attempt)
    (fuel n : Nat) (sleeps : List Nat) (j : JVal) (r : ChatResponse)
    (ha : attempts n = Attempt.returns j) (hr : processSuccess lang message j = some r) :
    chatLoop lang message attempts (Nat.succ fuel) n sleeps = (r, n, sleeps) := by
  simp [chatLoop, ha, hr]

lemma chatLoop_step_throw_retry (lang message : String) (attempts : Nat → Attempt)
    (fuel n : Nat) (sleeps : List Nat)
    (ha : attempts n = Attempt.throws) (hn : n < maxAttempts) :
    chatLoop lang message attempts (Nat.succ fuel) n sleeps =
      chatLoop lang message attempts fuel (n + 1) (sleeps ++ [backoffMs n]) := by
  have hn' : ¬ maxAttempts ≤ n := Nat.not_le.mpr hn
  simp [chatLoop, ha, hn']

lemma chatLoop_step_throw_exhaust (lang message : String) (attempts : Nat → Attempt)
    (fuel n : Nat) (sleeps : List Nat)
    (ha : attempts n = Attempt.throws) (hn : maxAttempts ≤ n) :
    chatLoop lang message attempts (Nat.succ fuel) n sleeps =
      (ChatResponse.reply (serverErrorReplyText lang) (JVal.jbool false), n, sleeps) := by
  simp [chatLoop, ha, hn]

lemma chatLoop_step_crash_retry (lang message : String) (attempts : Nat → Attempt)
    (fuel n : Nat) (sleeps : List Nat) (j : JVal)
    (ha : attempts n = Attempt.returns j) (hp : processSuccess lang message j = none)
    (hn : n < maxAttempts) :
    chatLoop lang message attempts (Nat.succ fuel) n sleeps =
      chatLoop lang message attempts fuel (n + 1) (sleeps ++ [backoffMs n]) := by
  have hn' : ¬ maxAttempts ≤ n := Nat.not_le.mpr hn
  simp [chatLoop, ha, hp, hn']

lemma chatLoop_step_crash_exhaust (lang message : String) (attempts : Nat → Attempt)
    (fuel n : Nat) (sleeps : List Nat) (j : JVal)
    (ha : attempts n = Attempt.returns j) (hp : processSuccess lang message j = none)
    (hn : maxAttempts ≤ n) :
    chatLoop lang message attempts (Nat.succ fuel) n sleeps =
      (ChatResponse.reply (serverErrorReplyText lang) (JVal.jbool false), n, sleeps) := by
  simp [chatLoop, ha, hp, hn]

/-- The try-block on a returned object yields the empty-reply soft response
whenever extraction gives null or a whitespace-only string. -/
lemma processSuccess_of_empty (lang message : String) (j : JVal)
    (h : extractReplyFromProviderObj j = ReplyVal.rnull ∨
         ∃ s, extractReplyFromProviderObj j = ReplyVal.rstr s ∧ jsTrim s = "") :
    processSuccess lang message j =
      some (ChatResponse.reply (emptyReplyText lang) (JVal.jbool false)) := by
  rcases h with h | ⟨s, h, ht⟩
  · simp [processSuccess, h]
  · simp [processSuccess, h, ht]

/-- The try-block on a returned object yields the keyword crisis response
when extraction gives a nonempty string that does not declare type crisis
and the raw input carries a trigger. -/
lemma processSuccess_keyword_crisis (lang message : String) (j : JVal) (s : String)
    (hx : extractReplyFromProviderObj j = ReplyVal.rstr s) (ht : jsTrim s ≠ "")
    (hc : isCrisisTyped (parseJsonSafe s) = false) (hk : triggersHit message = true) :
    processSuccess lang message j =
      some (ChatResponse.crisis (some (JVal.jstr (crisisReplyText lang)))
        (fallbackHelplinesJ lang)) := by
  simp [processSuccess, hx, ht, hc, hk]

/-- Every response produced inside the try-block is sent with res.json,
hence status 200. -/
lemma processSuccess_status (lang message : String) (j : JVal) (r : ChatResponse)
    (h : processSuccess lang message j = some r) : statusOf r = 200 := by
  cases hx : extractReplyFromProviderObj j <;> simp only [processSuccess, hx] at h
  · cases h; rfl
  · split at h
    · cases h; rfl
    · split at h
      · cases h; rfl
      · split at h
        · cases h; rfl
        · cases h; rfl
  · cases h

/-- The loop never runs out of fuel when started with enough of it, so the
post-loop quota response is unreachable: every result is a 200 response or
the pre-loop credentials error. -/
lemma chatLoop_status (lang message : String) (attempts : Nat → Attempt) :
    ∀ fuel n sleeps, 1 ≤ fuel → maxAttempts + 1 ≤ n + fuel →
      statusOf (chatLoop lang message attempts fuel n sleeps).1 = 200 := by
  intro fuel
  induction fuel with
  | zero => intro n sleeps h1 _; exact absurd h1 (by decide)
  | succ f ih =>
    intro n sleeps _ h2
    have hm : maxAttempts = 3 := rfl
    cases ha : attempts n with
    | throws =>
      by_cases hn : maxAttempts ≤ n
      · rw [chatLoop_step_throw_exhaust lang message attempts f n sleeps ha hn]; rfl
      · have hn' : n < maxAttempts := Nat.not_le.mp hn
        rw [chatLoop_step_throw_retry lang message attempts f n sleeps ha hn']
        exact ih (n + 1) (sleeps ++ [backoffMs n]) (by omega) (by omega)
    | returns j =>
      cases hp : processSuccess lang message j with
      | some r =>
        rw [chatLoop_step_respond lang message attempts f n sleeps j r ha hp]
        exact processSuccess_status lang message j r hp
      | none =>
        by_cases hn : maxAttempts ≤ n
        · rw [chatLoop_step_crash_exhaust lang message attempts f n sleeps j ha hp hn]; rfl
        · have hn' : n < maxAttempts := Nat.not_le.mp hn
          rw [chatLoop_step_crash_retry lang message attempts f n sleeps j ha hp hn']
          exact ih (n + 1) (sleeps ++ [backoffMs n]) (by omega) (by omega)

/-- Reaching a first successful provider call at attempt n (after throws)
returns that attempt's response with the backoffs slept so far. -/
lemma chatHandler_first_success (env : Env) (p : Provider) (lang message : String)
    (attempts : Nat → Attempt) (n : Nat) (j : JVal) (r : ChatResponse)
    (hsel : selectProvider env = some p) (h1 : 1 ≤ n) (h2 : n ≤ 3)
    (hpre : ∀ i, 1 ≤ i → i < n → attempts i = Attempt.throws)
    (ha : attempts n = Attempt.returns j)
    (hr : processSuccess lang message j = some r) :
    chatHandler env lang message attempts =
      (r, n, (List.range (n - 1)).map (fun i => backoffMs (i + 1))) := by
  unfold chatHandler
  rw [hsel]
  interval_cases n
  · show chatLoop lang message attempts (Nat.succ 2) 1 [] = _
    rw [chatLoop_step_respond lang message attempts 2 1 [] j r ha hr]
    rfl
  · show chatLoop lang message attempts (Nat.succ 2) 1 [] = _
    rw [chatLoop_step_throw_retry lang message attempts 2 1 []
      (hpre 1 (by decide) (by decide)) (by decide)]
    show chatLoop lang message attempts (Nat.succ 1) 2 ([] ++ [backoffMs 1]) = _
    rw [chatLoop_step_respond lang message attempts 1 2 _ j r ha hr]
    rfl
  · show chatLoop lang message attempts (Nat.succ 2) 1 [] = _
    rw [chatLoop_step_throw_retry lang message attempts 2 1 []
      (hpre 1 (by decide) (by decide)) (by decide)]
    show chatLoop lang message attempts (Nat.succ 1) 2 ([] ++ [backoffMs 1]) = _
    rw [chatLoop_step_throw_retry lang message attempts 1 2 _
      (hpre 2 (by decide) (by decide)) (by decide)]
    show chatLoop lang message attempts (Nat.succ 0) 3 (([] ++ [backoffMs 1]) ++ [backoffMs 2]) = _
    rw [chatLoop_step_respond lang message attempts 0 3 _ j r ha hr]
    rfl

/-- C2. When every provider call throws, the handler makes exactly 3
attempts, sleeps the exponential backoffs 1000 ms and 2000 ms (min of
1000 * 2^(n-1) and 60000, totalling 3000 ms), and then answers with the
locale apology as an ordinary type reply over HTTP 200 - no uncaught
error escapes. -/
theorem provider_throw_retry_exhaustion (env : Env) (p : Provider) (lang message : String)
    (attempts : Nat → Attempt) (hsel : selectProvider env = some p)
    (hall : ∀ n, attempts n = Attempt.throws) :
    chatHandler env lang message attempts =
      (ChatResponse.reply (serverErrorReplyText lang) (JVal.jbool false), 3,
        [backoffMs 1, backoffMs 2]) ∧
    backoffMs 1 = 1000 ∧ backoffMs 2 = 2000 ∧ backoffMs 1 + backoffMs 2 = 3000 ∧
    statusOf (chatHandler env lang message attempts).1 = 200 := by
  have hmain : chatHandler env lang message attempts =
      (ChatResponse.reply (serverErrorReplyText lang) (JVal.jbool false), 3,
        [backoffMs 1, backoffMs 2]) := by
    unfold chatHandler
    rw [hsel]
    show chatLoop lang message attempts (Nat.succ 2) 1 [] = _
    rw [chatLoop_step_throw_retry lang message attempts 2 1 [] (hall 1) (by decide)]
    show chatLoop lang message attempts (Nat.succ 1) 2 ([] ++ [backoffMs 1]) = _
    rw [chatLoop_step_throw_retry lang message attempts 1 2 _ (hall 2) (by decide)]
    show chatLoop lang message attempts (Nat.succ 0) 3 (([] ++ [backoffMs 1]) ++ [backoffMs 2]) = _
    rw [chatLoop_step_throw_exhaust lang message attempts 0 3 _ (hall 3) (by decide)]
    rfl
  exact ⟨hmain, by decide, by decide, by decide, by rw [hmain]; rfl⟩

/-- C2 witness at a concrete all-throwing trace. -/
theorem provider_throw_retry_exhaustion_witness :
    chatHandler envGoogleW "en" "hello" (fun _ => Attempt.throws) =
      (ChatResponse.reply (serverErrorReplyText "en") (JVal.jbool false), 3,
        [backoffMs 1, backoffMs 2]) ∧
    backoffMs 1 = 1000 ∧ backoffMs 2 = 2000 ∧ backoffMs 1 + backoffMs 2 = 3000 ∧
    statusOf (chatHandler envGoogleW "en" "hello" (fun _ => Attempt.throws)).1 = 200 :=
  provider_throw_retry_exhaustion envGoogleW Provider.google "en" "hello"
    (fun _ => Attempt.throws) rfl (fun _ => rfl)

/-- C10. When provider selection fails (no recognized provider with a key
in the environment), the handler returns the 500 credentials error before
any provider attempt: zero attempts, no sleeps, so no retry, crisis check
or reply classification runs. -/
theorem missing_credentials_early_500 (env : Env) (lang message : String)
    (attempts : Nat → Attempt) (hsel : selectProvider env = none) :
    chatHandler env lang message attempts =
      (ChatResponse.credentialsError "Missing API credentials for selected provider", 0, []) ∧
    statusOf (chatHandler env lang message attempts).1 = 500 := by
  have hmain : chatHandler env lang message attempts =
      (ChatResponse.credentialsError "Missing API credentials for selected provider", 0, []) := by
    unfold chatHandler
    rw [hsel]
  exact ⟨hmain, by rw [hmain]; rfl⟩

/-- C10 witness at an environment naming an unrecognized provider. -/
theorem missing_credentials_early_500_witness :
    chatHandler envBadW "en" "hello" (fun _ => Attempt.throws) =
      (ChatResponse.credentialsError "Missing API credentials for selected provider", 0, []) ∧
    statusOf (chatHandler envBadW "en" "hello" (fun _ => Attempt.throws)).1 = 500 :=
  missing_credentials_early_500 envBadW "en" "hello" (fun _ => Attempt.throws) rfl

/-- C4 counterexample. At the explicit fully-exhausted execution (every
provider attempt throws) control does not reach past the loop: the handler
responds from inside the loop with the status-200 soft apology, not with
the HTTP 429 quota body. -/
theorem exhaustion_returns_apology_not_429 :
    chatHandler envGoogleW "en" "hello" (fun _ => Attempt.throws) =
      (ChatResponse.reply (serverErrorReplyText "en") (JVal.jbool false), 3, [1000, 2000]) ∧
    statusOf (chatHandler envGoogleW "en" "hello" (fun _ => Attempt.throws)).1 = 200 :=
  ⟨rfl, rfl⟩

/-- C4 amended. The post-loop 429 fallback is dead code: every execution of
the handler answers with status 200 from inside the loop or with the
pre-loop 500 credentials error, never 429. -/
theorem post_loop_429_unreachable (env : Env) (lang message : String)
    (attempts : Nat → Attempt) :
    statusOf (chatHandler env lang message attempts).1 = 200 ∨
    statusOf (chatHandler env lang message attempts).1 = 500 := by
  unfold chatHandler
  cases hsel : selectProvider env with
  | none => right; rfl
  | some p =>
    left
    exact chatLoop_status lang message attempts maxAttempts 1 [] (by decide) (by decide)

/-- C3. When the loop reaches a provider call that succeeds but whose
extracted reply is null or empty, the handler immediately answers with the
locale could-not-generate reply at that very attempt: no further retry, no
further backoff sleeps beyond those already taken for earlier throws. -/
theorem empty_reply_returns_immediately (env : Env) (p : Provider) (lang message : String)
    (attempts : Nat → Attempt) (n : Nat) (j : JVal)
    (hsel : selectProvider env = some p) (h1 : 1 ≤ n) (h2 : n ≤ 3)
    (hpre : ∀ i, 1 ≤ i → i < n → attempts i = Attempt.throws)
    (ha : attempts n = Attempt.returns j)
    (hempty : extractReplyFromProviderObj j = ReplyVal.rnull ∨
              ∃ s, extractReplyFromProviderObj j = ReplyVal.rstr s ∧ jsTrim s = "") :
    chatHandler env lang message attempts =
      (ChatResponse.reply (emptyReplyText lang) (JVal.jbool false), n,
       (List.range (n - 1)).map (fun i => backoffMs (i + 1))) :=
  chatHandler_first_success env p lang message attempts n j _ hsel h1 h2 hpre ha
    (processSuccess_of_empty lang message j hempty)

/-- C3 witness: attempt 1 returns an object with no extractable reply and
the handler stops right there. -/
theorem empty_reply_returns_immediately_witness :
    chatHandler envGoogleW "en" "hello" attemptsEmptyW =
      (ChatResponse.reply (emptyReplyText "en") (JVal.jbool false), 1, []) :=
  empty_reply_returns_immediately envGoogleW Provider.google "en" "hello" attemptsEmptyW
    1 (JVal.jobj []) rfl (by decide) (by decide)
    (fun i hi hlt => absurd (Nat.lt_of_le_of_lt hi hlt) (Nat.lt_irrefl 1))
    rfl (Or.inl rfl)

/-- C1 counterexample. The keyword check does not always win: at the
explicit input where the message carries the trigger hopeless and every
provider attempt throws, the handler answers with the type reply apology,
not with type crisis. -/
theorem crisis_claim_fails_on_provider_errors :
    triggersHit "I feel hopeless" = true ∧
    chatHandler envGoogleW "en" "I feel hopeless" (fun _ => Attempt.throws) =
      (ChatResponse.reply (serverErrorReplyText "en") (JVal.jbool false), 3, [1000, 2000]) ∧
    ChatResponse.isCrisis
      (chatHandler envGoogleW "en" "I feel hopeless" (fun _ => Attempt.throws)).1 = false :=
  ⟨rfl, rfl, rfl⟩

/-- C1 amended. For locales en and hi, when a provider attempt succeeds
with a nonempty extracted reply that does not itself declare type crisis,
a trigger keyword in the lower-cased raw input forces the response to type
crisis with the server crisis text and the nonempty fallback helpline list
over HTTP 200; the keyword check thus wins over the model classification on
successful nonempty replies, while provider errors and empty replies take
the type reply fallbacks instead. -/
theorem crisis_keyword_overrides_model_reply (env : Env) (p : Provider)
    (lang message : String) (attempts : Nat → Attempt) (n : Nat) (j : JVal) (s : String)
    (hsel : selectProvider env = some p) (h1 : 1 ≤ n) (h2 : n ≤ 3)
    (hpre : ∀ i, 1 ≤ i → i < n → attempts i = Attempt.throws)
    (ha : attempts n = Attempt.returns j)
    (hx : extractReplyFromProviderObj j = ReplyVal.rstr s) (ht : jsTrim s ≠ "")
    (hc : isCrisisTyped (parseJsonSafe s) = false)
    (hlang : lang = "en" ∨ lang = "hi") (hk : triggersHit message = true) :
    chatHandler env lang message attempts =
      (ChatResponse.crisis (some (JVal.jstr (crisisReplyText lang))) (fallbackHelplinesJ lang),
       n, (List.range (n - 1)).map (fun i => backoffMs (i + 1))) ∧
    helplinesNonEmptyJ (fallbackHelplinesJ lang) = true ∧
    statusOf (chatHandler env lang message attempts).1 = 200 := by
  have hmain := chatHandler_first_success env p lang message attempts n j _ hsel h1 h2 hpre ha
    (processSuccess_keyword_crisis lang message j s hx ht hc hk)
  refine ⟨hmain, ?_, by rw [hmain]; rfl⟩
  rcases hlang with h | h <;> subst h <;> decide

/-- C1 witness: the message carries the trigger want to die, attempt 1
succeeds with a plain supportive reply, and the handler overrides it with
the crisis response and the fallback helplines. -/
theorem crisis_keyword_overrides_model_reply_witness :
    chatHandler envGoogleW "en" "I want to die" attemptsKeywordW =
      (ChatResponse.crisis (some (JVal.jstr (crisisReplyText "en"))) (fallbackHelplinesJ "en"),
       1, []) ∧
    helplinesNonEmptyJ (fallbackHelplinesJ "en") = true ∧
    statusOf (chatHandler envGoogleW "en" "I want to die" attemptsKeywordW).1 = 200 :=
  crisis_keyword_overrides_model_reply envGoogleW Provider.google "en" "I want to die"
    attemptsKeywordW 1 openaiGoodObjW "Stay strong, friend" rfl (by decide) (by decide)
    (fun i hi hlt => absurd (Nat.lt_of_le_of_lt hi hlt) (Nat.lt_irrefl 1))
    rfl rfl (by decide) (by decide) (Or.inl rfl) (by decide)

/-- A truthy string is truthy. -/
lemma jTruthy_jstr_of_ne (s : String) (hs : s ≠ "") : jTruthy (JVal.jstr s) = true := by
  simp [jTruthy, hs]

/-- An object whose Gemini text path is defined is itself truthy. -/
lemma jTruthy_of_geminiText (j v : JVal) (h : geminiTextOf j = some v) :
    jTruthy j = true := by
  cases j <;> first
  | rfl
  | simp [geminiTextOf, jGet] at h

/-- An object whose OpenAI content path is defined is itself truthy. -/
lemma jTruthy_of_openaiContent (j w : JVal) (h : openaiContentOf j = some w) :
    jTruthy j = true := by
  cases j <;> first
  | rfl
  | simp [openaiContentOf, jGet] at h

/-- C9 counterexample. Null extraction is not treated as a retryable
failure: attempt 1 yields an unmatched shape, a good reply sits ready at
attempt 2, yet the handler returns the could-not-generate reply at attempt
1 with no sleeps - attempt 2 would have produced an ordinary reply. -/
theorem null_extraction_not_retried :
    extractReplyFromProviderObj unknownShapeObjW = ReplyVal.rnull ∧
    chatHandler envGoogleW "en" "hello" attemptsRetryCheckW =
      (ChatResponse.reply (emptyReplyText "en") (JVal.jbool false), 1, []) ∧
    processSuccess "en" "hello" openaiGoodObjW =
      some (ChatResponse.reply "Stay strong, friend" (JVal.jbool false)) :=
  ⟨rfl, rfl, rfl⟩

/-- C9 amended. Reply extraction is shape-specific: on the Gemini path the
nested text is fence-stripped and, when the stripped text parses as a
truthy JSON value with a truthy string text field, that field is unwrapped;
a stripped text that is not JSON is returned as is; on the OpenAI path the
flat choices message content is fence-stripped; an object matching neither
pattern extracts to null, which the caller treats as an immediate
success-with-empty (the could-not-generate reply at that attempt, no crash
and no retry). -/
theorem extract_reply_shape_specific :
    (∀ (j : JVal) (s : String) (p : JVal) (u : String),
      geminiTextOf j = some (JVal.jstr s) → s ≠ "" →
      parseJsonSafe (stripCodeFences s) = some p → jTruthy p = true →
      jGet p "text" = some (JVal.jstr u) → u ≠ "" →
      extractReplyFromProviderObj j = ReplyVal.rstr u) ∧
    (∀ (j : JVal) (s : String),
      geminiTextOf j = some (JVal.jstr s) → s ≠ "" →
      parseJsonSafe (stripCodeFences s) = none →
      extractReplyFromProviderObj j = ReplyVal.rstr (stripCodeFences s)) ∧
    (∀ (j : JVal) (c : String),
      geminiTextOf j = none →
      openaiContentOf j = some (JVal.jstr c) → c ≠ "" →
      extractReplyFromProviderObj j = ReplyVal.rstr (stripCodeFences c)) ∧
    (∀ j : JVal,
      (∀ v, geminiTextOf j = some v → jTruthy v = false) →
      (∀ w, openaiContentOf j = some w → jTruthy w = false) →
      extractReplyFromProviderObj j = ReplyVal.rnull) ∧
    (∀ (env : Env) (p : Provider) (lang message : String)
        (attempts : Nat → Attempt) (j : JVal),
      selectProvider env = some p →
      attempts 1 = Attempt.returns j → extractReplyFromProviderObj j = ReplyVal.rnull →
      chatHandler env lang message attempts =
        (ChatResponse.reply (emptyReplyText lang) (JVal.jbool false), 1, [])) := by
  refine ⟨?_, ?_, ?_, ?_, ?_⟩
  · intro j s p u hg hs hp htr hu hu0
    have hj := jTruthy_of_geminiText j _ hg
    have h1 := jTruthy_jstr_of_ne s hs
    have h2 := jTruthy_jstr_of_ne u hu0
    simp [extractReplyFromProviderObj, hj, hg, h1, geminiUnwrap, hp, htr, hu, h2, safeTextJ]
  · intro j s hg hs hp
    have hj := jTruthy_of_geminiText j _ hg
    have h1 := jTruthy_jstr_of_ne s hs
    simp [extractReplyFromProviderObj, hj, hg, h1, geminiUnwrap, hp]
  · intro j c hg ho hc0
    have hj := jTruthy_of_openaiContent j _ ho
    have h1 := jTruthy_jstr_of_ne c hc0
    simp [extractReplyFromProviderObj, hj, hg, openaiBranch, ho, h1]
  · intro j hg ho
    cases hjt : jTruthy j with
    | false => simp [extractReplyFromProviderObj, hjt]
    | true =>
      cases hgv : geminiTextOf j with
      | none =>
        cases hov : openaiContentOf j with
        | none => simp [extractReplyFromProviderObj, hjt, hgv, openaiBranch, hov]
        | some w =>
          have hw := ho w hov
          simp [extractReplyFromProviderObj, hjt, hgv, openaiBranch, hov, hw]
      | some v =>
        have hv := hg v hgv
        cases hov : openaiContentOf j with
        | none => simp [extractReplyFromProviderObj, hjt, hgv, hv, openaiBranch, hov]
        | some w =>
          have hw := ho w hov
          simp [extractReplyFromProviderObj, hjt, hgv, hv, openaiBranch, hov, hw]
  · intro env p lang message attempts j hsel ha hx
    exact chatHandler_first_success env p lang message attempts 1 j _ hsel (by decide)
      (by decide) (fun i hi hlt => absurd (Nat.lt_of_le_of_lt hi hlt) (Nat.lt_irrefl 1)) ha
      (processSuccess_of_empty lang message j (Or.inl hx))

/-- C9 witness applying each part at concrete provider objects. -/
theorem extract_reply_shape_specific_witness :
    extractReplyFromProviderObj (geminiObjOf fencedTextW) = ReplyVal.rstr "Hello!" ∧
    extractReplyFromProviderObj (geminiObjOf geminiPlainTextW) =
      ReplyVal.rstr (stripCodeFences geminiPlainTextW) ∧
    extractReplyFromProviderObj openaiGoodObjW =
      ReplyVal.rstr (stripCodeFences "Stay strong, friend") ∧
    extractReplyFromProviderObj unknownShapeObjW = ReplyVal.rnull ∧
    chatHandler envGoogleW "en" "hello" attemptsEmptyW =
      (ChatResponse.reply (emptyReplyText "en") (JVal.jbool false), 1, []) :=
  ⟨extract_reply_shape_specific.1 (geminiObjOf fencedTextW) fencedTextW fencedParsedW
      "Hello!" rfl (by decide) rfl rfl rfl (by decide),
   extract_reply_shape_specific.2.1 (geminiObjOf geminiPlainTextW) geminiPlainTextW
      rfl (by decide) rfl,
   extract_reply_shape_specific.2.2.1 openaiGoodObjW "Stay strong, friend" rfl rfl (by decide),
   extract_reply_shape_specific.2.2.2.1 unknownShapeObjW
      (fun v h => nomatch h) (fun w h => nomatch h),
   extract_reply_shape_specific.2.2.2.2 envGoogleW Provider.google "en" "hello" attemptsEmptyW
      (JVal.jobj []) rfl rfl rfl⟩

/-- The clamp of goToStep keeps the index inside [0, totalSteps - 1] and
leaves the step count unchanged, for any live state. -/
lemma goToStep_bounds (st : ExerciseState) (k : Int) (hT : 0 < st.totalSteps) :
    0 ≤ (goToStep st k).currentStep ∧ (goToStep st k).currentStep < (st.totalSteps : Int) ∧
    (goToStep st k).totalSteps = st.totalSteps := by
  have hT' : (0 : Int) < (st.totalSteps : Int) := by exact_mod_cast hT
  refine ⟨le_max_left _ _, ?_, rfl⟩
  have h1 : min ((st.totalSteps : Int) - 1) k ≤ (st.totalSteps : Int) - 1 := min_le_left _ _
  exact max_lt_iff.mpr ⟨hT', by omega⟩

/-- C5. Creating a state from an analysis with a nonempty recommendation
array puts the invariant in place (step 0, totalSteps the array length),
and goToStep - hence Next and Prev - clamps any requested index back into
[0, totalSteps - 1] while preserving totalSteps. -/
theorem exercise_state_invariant (result : AnalysisResult) (st st2 : ExerciseState) (k : Int)
    (h : handleAnalysisResult result = some st) (hT : 0 < st2.totalSteps) :
    (st.analysis = result ∧ st.currentStep = 0 ∧
     isJArr (normalizedRecommendations result) = true ∧
     st.totalSteps = jArrLenOf (normalizedRecommendations result) ∧
     0 ≤ st.currentStep ∧ st.currentStep < (st.totalSteps : Int)) ∧
    (0 ≤ (goToStep st2 k).currentStep ∧ (goToStep st2 k).currentStep < (st2.totalSteps : Int) ∧
     (goToStep st2 k).totalSteps = st2.totalSteps) ∧
    (0 ≤ (nextStep st2).currentStep ∧ (nextStep st2).currentStep < (st2.totalSteps : Int) ∧
     (nextStep st2).totalSteps = st2.totalSteps) ∧
    (0 ≤ (prevStep st2).currentStep ∧ (prevStep st2).currentStep < (st2.totalSteps : Int) ∧
     (prevStep st2).totalSteps = st2.totalSteps) := by
  refine ⟨?_, goToStep_bounds st2 k hT, goToStep_bounds st2 _ hT, goToStep_bounds st2 _ hT⟩
  unfold handleAnalysisResult at h
  cases hn : normalizedRecommendations result <;> rw [hn] at h
  case jnull => cases h
  case jbool => cases h
  case jnum => cases h
  case jstr => cases h
  case jobj => cases h
  case jarr xs =>
    have h2 : (if 0 < xs.length then
        some (⟨result, 0, xs.length⟩ : ExerciseState) else none) = some st := h
    by_cases hlen : 0 < xs.length
    · rw [if_pos hlen] at h2
      cases h2
      refine ⟨rfl, rfl, rfl, rfl, le_refl _, ?_⟩
      show (0 : Int) < (xs.length : Int)
      exact_mod_cast hlen
    · rw [if_neg hlen] at h2
      cases h2

/-- C5 witness at the two-step analysis and a live state of two steps. -/
theorem exercise_state_invariant_witness :
    ((⟨twoStepAnalysisW, 0, 2⟩ : ExerciseState).analysis = twoStepAnalysisW ∧
     (⟨twoStepAnalysisW, 0, 2⟩ : ExerciseState).currentStep = 0 ∧
     isJArr (normalizedRecommendations twoStepAnalysisW) = true ∧
     (⟨twoStepAnalysisW, 0, 2⟩ : ExerciseState).totalSteps =
       jArrLenOf (normalizedRecommendations twoStepAnalysisW) ∧
     0 ≤ (⟨twoStepAnalysisW, 0, 2⟩ : ExerciseState).currentStep ∧
     (⟨twoStepAnalysisW, 0, 2⟩ : ExerciseState).currentStep <
       ((⟨twoStepAnalysisW, 0, 2⟩ : ExerciseState).totalSteps : Int)) ∧
    (0 ≤ (goToStep ⟨twoStepAnalysisW, 0, 2⟩ 5).currentStep ∧
     (goToStep ⟨twoStepAnalysisW, 0, 2⟩ 5).currentStep <
       ((⟨twoStepAnalysisW, 0, 2⟩ : ExerciseState).totalSteps : Int) ∧
     (goToStep ⟨twoStepAnalysisW, 0, 2⟩ 5).totalSteps =
       (⟨twoStepAnalysisW, 0, 2⟩ : ExerciseState).totalSteps) ∧
    (0 ≤ (nextStep ⟨twoStepAnalysisW, 0, 2⟩).currentStep ∧
     (nextStep ⟨twoStepAnalysisW, 0, 2⟩).currentStep <
       ((⟨twoStepAnalysisW, 0, 2⟩ : ExerciseState).totalSteps : Int) ∧
     (nextStep ⟨twoStepAnalysisW, 0, 2⟩).totalSteps =
       (⟨twoStepAnalysisW, 0, 2⟩ : ExerciseState).totalSteps) ∧
    (0 ≤ (prevStep ⟨twoStepAnalysisW, 0, 2⟩).currentStep ∧
     (prevStep ⟨twoStepAnalysisW, 0, 2⟩).currentStep <
       ((⟨twoStepAnalysisW, 0, 2⟩ : ExerciseState).totalSteps : Int) ∧
     (prevStep ⟨twoStepAnalysisW, 0, 2⟩).totalSteps =
       (⟨twoStepAnalysisW, 0, 2⟩ : ExerciseState).totalSteps) :=
  exercise_state_invariant twoStepAnalysisW ⟨twoStepAnalysisW, 0, 2⟩
    ⟨twoStepAnalysisW, 0, 2⟩ 5 rfl (by decide)

/-- C6. A single complete action from any live state clears the state back
to Idle and emits the completion message reporting the total step count and
the analysis score; in the concrete scenario with the two recommendations,
Next then Complete reports 2 steps done. -/
theorem complete_exercise_transitions_idle (lang : String) (st : ExerciseState) :
    (completeExercise lang st).1 = none ∧
    (completeExercise "en" st).2 =
      "Exercise complete! " ++ toString st.totalSteps ++ " steps done. Final score: " ++
        jsStringOf (exerciseFinalScore st) ++ "/100. Great job!" ∧
    (completeExercise "hi" st).2 =
      "अभ्यास पूरा! " ++ toString st.totalSteps ++ " कदम पूरे। अंतिम स्कोर: " ++
        jsStringOf (exerciseFinalScore st) ++ "/100। शानदार!" ∧
    (handleAnalysisResult twoStepAnalysisW).map
        (fun st0 => completeExercise "en" (nextStep st0)) =
      some (none, "Exercise complete! 2 steps done. Final score: 0/100. Great job!") :=
  ⟨rfl, rfl, rfl, rfl⟩

/-- C7. A send that fails - non-ok HTTP status, a thrown network or
body-read error, or the abort timeout - leaves the transcript exactly as it
was before the optimistic user turn was appended: the turn is rolled back
and the length is unchanged. -/
theorem failed_send_rolls_back_transcript (hist : List Turn) (reqLang text : String)
    (outcome : SendOutcome) (htext : text ≠ "") (hfail : outcome.isFailure = true) :
    sendMessage hist reqLang text outcome = hist ∧
    (sendMessage hist reqLang text outcome).length = hist.length := by
  have hmain : sendMessage hist reqLang text outcome = hist := by
    cases outcome with
    | httpNonOk s b => simp [sendMessage, htext]
    | networkError => simp [sendMessage, htext]
    | timeoutAbort => simp [sendMessage, htext]
    | ok body => simp [SendOutcome.isFailure] at hfail
  exact ⟨hmain, by rw [hmain]⟩

/-- C7 witness: a network error rolls the one appended turn back. -/
theorem failed_send_rolls_back_transcript_witness :
    sendMessage [⟨"model", JVal.jstr "Hi"⟩] "en" "I am sad" SendOutcome.networkError =
      [⟨"model", JVal.jstr "Hi"⟩] ∧
    (sendMessage [⟨"model", JVal.jstr "Hi"⟩] "en" "I am sad"
        SendOutcome.networkError).length = [(⟨"model", JVal.jstr "Hi"⟩ : Turn)].length :=
  failed_send_rolls_back_transcript [⟨"model", JVal.jstr "Hi"⟩] "en" "I am sad"
    SendOutcome.networkError (by decide) rfl

/-- C8. With no file attached /api/analyze answers 400 with the structured
error body; with a file attached and the upstream unreachable or replying
with a non-success status, it answers 200 with the canned fallback whose
recommendations list has length at least 1. -/
theorem analyze_fallback_policy (lang : String) (py : PyOutcome) (f : UploadedFile)
    (hfail : py = PyOutcome.unreachable ∨ ∃ s, py = PyOutcome.httpError s) :
    (analyzeHandler none lang py = AnalyzeResponse.noImage ∧
     analyzeStatus (analyzeHandler none lang py) = 400) ∧
    (analyzeStatus (analyzeHandler (some f) lang py) = 200 ∧
     analyzeHandler (some f) lang py =
       AnalyzeResponse.fallback (fallbackSummary lang) (fallbackRecommendations lang)
         "Python server offline or unreachable." ∧
     1 ≤ (fallbackRecommendations lang).length) := by
  have hrec : 1 ≤ (fallbackRecommendations lang).length := by
    unfold fallbackRecommendations
    split <;> simp
  rcases hfail with h | ⟨s, h⟩ <;> subst h <;> exact ⟨⟨rfl, rfl⟩, rfl, rfl, hrec⟩

/-- C8 witness at an unreachable upstream in locale en. -/
theorem analyze_fallback_policy_witness :
    (analyzeHandler none "en" PyOutcome.unreachable = AnalyzeResponse.noImage ∧
     analyzeStatus (analyzeHandler none "en" PyOutcome.unreachable) = 400) ∧
    (analyzeStatus (analyzeHandler (some fileW) "en" PyOutcome.unreachable) = 200 ∧
     analyzeHandler (some fileW) "en" PyOutcome.unreachable =
       AnalyzeResponse.fallback (fallbackSummary "en") (fallbackRecommendations "en")
         "Python server offline or unreachable." ∧
     1 ≤ (fallbackRecommendations "en").length) :=
  analyze_fallback_policy "en" PyOutcome.unreachable fileW (Or.inl rfl)
